import Mathlib

/-!
Shallow embedding of the budget/transaction consistency engine of the
gestionbudgetback repository (Express + Mongoose personal-finance backend).

Conventions of the embedding:
* monetary amounts are rationals (JS numbers carrying decimal values);
* dates are integer day numbers (comparisons and the auto-save calendar
  arithmetic are the only date operations the engine performs);
* Mongo ObjectIds are naturals;
* a Mongoose document save is modelled as: run the schema validators,
  then the user pre("save") hooks, then commit.  Mongoose runs the
  validators before the user pre("save") hooks (save() triggers
  validate() through a built-in pre hook registered first);
* a fallible operation returns `Except String α`; the string is the
  message of the Error / ValidationError raised by the source.
-/

namespace GestionBudget

/-! ### Account model (models/Account.js) -/

inductive AccountType
  | checking
  | savings
  | credit
  | investment
deriving DecidableEq

/-- Account document: the fields read or written by the consistency engine
(`_id`, `userId`, `type`, `balance`).  The schema declares
`balance: { min: 0 }` ("Le solde ne peut pas être négatif"). -/
structure Account where
  id : Nat
  userId : Nat
  type : AccountType
  balance : ℚ
deriving DecidableEq

/-- The persisted Account collection. -/
abbrev AccState := List Account

/-- Model of `Account.findById`. -/
def findAcc (st : AccState) (i : Nat) : Option Account :=
  st.find? (fun a => decide (a.id = i))

/-- Commit a fetched document back to the collection (replaces the stored
document with the same `_id`). -/
def putAcc (st : AccState) (a : Account) : AccState :=
  st.map (fun b => if b.id = a.id then a else b)

/-- accountSchema.pre("save"): a credit account with a negative balance is
normalized to its absolute value. -/
def normalizeCredit (a : Account) : Account :=
  if a.type = AccountType.credit ∧ a.balance < 0 then
    { a with balance := |a.balance| }
  else a

/-- Model of `account.save()`: the schema validator `balance ≥ 0` runs first (Mongoose
validates before user pre("save") hooks), then the credit-normalization
pre("save") hook, then the commit. -/
def saveAccount (st : AccState) (a : Account) : Except String AccState :=
  if a.balance < 0 then Except.error "Le solde ne peut pas être négatif"
  else Except.ok (putAcc st (normalizeCredit a))

inductive BalanceOp
  | add
  | subtract
  | set
deriving DecidableEq

/-- accountSchema.methods.updateBalance: mutate the balance, throw
"Solde insuffisant" when a non-credit balance would become negative,
otherwise save. -/
def updateBalance (st : AccState) (a : Account) (amount : ℚ) (op : BalanceOp) :
    Except String AccState :=
  let newBalance : ℚ :=
    match op with
    | BalanceOp.add => a.balance + amount
    | BalanceOp.subtract => a.balance - amount
    | BalanceOp.set => amount
  let a2 := { a with balance := newBalance }
  if a2.type ≠ AccountType.credit ∧ a2.balance < 0 then
    Except.error "Solde insuffisant"
  else saveAccount st a2

/-! ### Transaction model (models/Transaction.js) -/

inductive TxType
  | income
  | expense
  | transfer
deriving DecidableEq

inductive TxStatus
  | pending
  | completed
  | cancelled
deriving DecidableEq

/-- Transaction (ledger entry) document, restricted to the fields the
consistency engine reads.  The schema declares `amount: { min: 0.01 }`
("Le montant doit être supérieur à 0") and `status` defaults to
"completed". -/
structure Transaction where
  id : Nat
  userId : Nat
  accountId : Nat
  categoryId : Nat
  type : TxType
  amount : ℚ
  date : Int
  transferAccountId : Option Nat := none
  status : TxStatus := TxStatus.completed
deriving DecidableEq

/-- transactionSchema.pre("save"): a transfer needs a destination account
distinct from the source account. -/
def validateTransferTx (t : Transaction) : Except String Unit :=
  if t.type = TxType.transfer ∧ t.transferAccountId = none then
    Except.error "Le compte de destination est requis pour un transfert"
  else if t.type = TxType.transfer ∧ t.transferAccountId = some t.accountId then
    Except.error "Le compte source et destination ne peuvent pas être identiques"
  else Except.ok ()

/-- Validation phase of `transaction.save()`: the schema `min: 0.01`
validator, then the transfer pre("save") hook. -/
def validateTxSave (t : Transaction) : Except String Unit :=
  if t.amount < 1 / 100 then Except.error "Le montant doit être supérieur à 0"
  else validateTransferTx t

/-- transactionSchema.post("save"): update the account balances after a
transaction save.  All errors are caught (and only logged), so the hook
itself never fails; a failed account save leaves the persisted
balance of that account unchanged.  For a transfer the destination account is saved
before the source account, exactly as in the source. -/
def postSaveUpdateBalance (doc : Transaction) (st : AccState) : AccState :=
  match findAcc st doc.accountId with
  | none => st
  | some account =>
    match doc.type with
    | TxType.income =>
      match saveAccount st { account with balance := account.balance + doc.amount } with
      | Except.ok st2 => st2
      | Except.error _ => st
    | TxType.expense =>
      match saveAccount st { account with balance := account.balance - doc.amount } with
      | Except.ok st2 => st2
      | Except.error _ => st
    | TxType.transfer =>
      let account2 := { account with balance := account.balance - doc.amount }
      match (match doc.transferAccountId with
             | some j => findAcc st j
             | none => none) with
      | some destinationAccount =>
        match saveAccount st { destinationAccount with
                               balance := destinationAccount.balance + doc.amount } with
        | Except.error _ => st
        | Except.ok st1 =>
          match saveAccount st1 account2 with
          | Except.ok st2 => st2
          | Except.error _ => st1
      | none =>
        match saveAccount st account2 with
        | Except.ok st2 => st2
        | Except.error _ => st

/-- The persisted state the transaction routes operate on. -/
structure LedgerState where
  accounts : AccState
  txs : List Transaction
deriving DecidableEq

/-- Model of `new Transaction(...).save()` (creation path of POST /api/transactions):
validation and the transfer pre("save") hook, then the insert, then the
balance-updating post("save") hook. -/
def saveNewTransaction (db : LedgerState) (t : Transaction) :
    Except String LedgerState :=
  match validateTxSave t with
  | Except.error e => Except.error e
  | Except.ok _ =>
    Except.ok { txs := db.txs ++ [t],
                accounts := postSaveUpdateBalance t db.accounts }

/-- Model of `Transaction.findOne({ _id, userId })`. -/
def findTx (db : LedgerState) (txId userId : Nat) : Option Transaction :=
  db.txs.find? (fun t => decide (t.id = txId ∧ t.userId = userId))

/-- Model of `Account.findOne({ _id, userId })`. -/
def findAccountOwned (st : AccState) (i userId : Nat) : Option Account :=
  match findAcc st i with
  | some a => if a.userId = userId then some a else none
  | none => none

/-- Model of `Account.findByIdAndUpdate(id, { $inc: { balance: delta } })`: an atomic
increment; update validators are NOT run (Mongoose default), and no save
hooks fire. -/
def incBalance (st : AccState) (i : Nat) (delta : ℚ) : AccState :=
  match findAcc st i with
  | none => st
  | some a => putAcc st { a with balance := a.balance + delta }

/-- Tail of PUT /api/transactions/:id after the balance adjustments: update
the fields of the transaction document and `transaction.save()` it, which
re-runs validation, the transfer pre("save") hook and the
balance-updating post("save") hook. -/
def finishPutTransaction (db : LedgerState) (st : AccState) (tx : Transaction)
    (accountId categoryId : Nat) (amount : ℚ) (date : Option Int) :
    LedgerState × Except String Unit :=
  let tx2 := { tx with accountId := accountId, categoryId := categoryId,
                       amount := amount, date := date.getD tx.date }
  match validateTxSave tx2 with
  | Except.error e => ({ db with accounts := st }, Except.error e)
  | Except.ok _ =>
    ({ accounts := postSaveUpdateBalance tx2 st,
       txs := db.txs.map (fun u => if u.id = tx.id then tx2 else u) },
     Except.ok ())

/-- PUT /api/transactions/:id (routes/transactions.js): find the
transaction; when the account changed, check ownership of the new
account and `$inc` the old account by `-transaction.amount` and the new
account by the new amount; otherwise when the amount changed, `$inc` the
account by the difference; then update and save the transaction
document. -/
def putTransaction (db : LedgerState) (txId userId accountId categoryId : Nat)
    (amount : ℚ) (date : Option Int) : LedgerState × Except String Unit :=
  match findTx db txId userId with
  | none => (db, Except.error "Transaction non trouvée")
  | some tx =>
    if accountId ≠ tx.accountId then
      match findAccountOwned db.accounts accountId userId with
      | none => (db, Except.error "Compte non trouvé")
      | some _ =>
        let st := incBalance db.accounts tx.accountId (-tx.amount)
        let st := incBalance st accountId amount
        finishPutTransaction db st tx accountId categoryId amount date
    else
      let st :=
        if amount ≠ tx.amount then
          incBalance db.accounts accountId (amount - tx.amount)
        else db.accounts
      finishPutTransaction db st tx accountId categoryId amount date

/-- DELETE /api/transactions/:id (routes/transactions.js):
`Transaction.findOneAndDelete({ _id, userId })` and nothing else — no
balance reversal is performed and no delete hook exists on the schema. -/
def deleteTransaction (db : LedgerState) (txId userId : Nat) :
    LedgerState × Except String Unit :=
  match findTx db txId userId with
  | none => (db, Except.error "Transaction non trouvée")
  | some _ =>
    ({ db with txs := db.txs.eraseP (fun t => decide (t.id = txId ∧ t.userId = userId)) },
     Except.ok ())

/-! ### Budget model (models/Budget.js, budgetSchema) -/

/-- Budget document, restricted to the fields the spend aggregation and the
derived percentage read.  Schema validators: `amount: { min: 0.01 }`,
`spent: { min: 0 }`, `alertThreshold: { min: 0, max: 100 }`. -/
structure Budget where
  userId : Nat
  categoryId : Nat
  amount : ℚ
  spent : ℚ
  startDate : Int
  endDate : Int
  alertThreshold : ℚ
deriving DecidableEq

/-- The numeric schema validators of budgetSchema. -/
def validateBudgetDoc (b : Budget) : Prop :=
  1 / 100 ≤ b.amount ∧ 0 ≤ b.spent ∧ 0 ≤ b.alertThreshold ∧ b.alertThreshold ≤ 100

instance (b : Budget) : Decidable (validateBudgetDoc b) := by
  unfold validateBudgetDoc; infer_instance

/-- Model of `budget.save()`: schema validators, then the pre("save") date-ordering
hook (`startDate >= endDate` is rejected), then commit. -/
def saveBudget (b : Budget) : Except String Budget :=
  if ¬ validateBudgetDoc b then Except.error "ValidationError"
  else if b.endDate ≤ b.startDate then
    Except.error "La date de fin doit être postérieure à la date de début"
  else Except.ok b

/-- The $match stage of budgetSchema.methods.updateSpent: completed expense
transactions of the owner and category of the budget dated within
[startDate, endDate] (both bounds inclusive: $gte / $lte). -/
def budgetTxMatch (b : Budget) (t : Transaction) : Bool :=
  decide (t.userId = b.userId ∧ t.categoryId = b.categoryId ∧
          t.type = TxType.expense ∧ t.status = TxStatus.completed ∧
          b.startDate ≤ t.date ∧ t.date ≤ b.endDate)

/-- budgetSchema.methods.updateSpent: aggregate the amounts of the matching
transactions ($group $sum, `result[0]?.total || 0` when nothing matches),
store the total in `spent` and save. -/
def updateSpent (b : Budget) (txs : List Transaction) : Except String Budget :=
  saveBudget { b with spent := ((txs.filter (budgetTxMatch b)).map (fun t => t.amount)).sum }

/-- Rounding of ECMAScript `Math.round`: round to the nearest integer, ties toward
positive infinity, i.e. `Math.round(x) = ⌊x + 1/2⌋`. -/
def jsRound (q : ℚ) : Int := ⌊q + 1 / 2⌋

/-- budgetSchema.virtual("percentageUsed"):
`this.amount > 0 ? Math.round((this.spent / this.amount) * 100) : 0`. -/
def percentageUsed (b : Budget) : Int :=
  if 0 < b.amount then jsRound (b.spent / b.amount * 100) else 0

/-! ### Goal model (models/Budget.js, goalSchema) -/

inductive ContribSource
  | manual
  | auto_save
  | bonus
  | transfer
deriving DecidableEq

inductive GoalStatus
  | active
  | completed
  | paused
  | cancelled
deriving DecidableEq

inductive AutoFreq
  | daily
  | weekly
  | monthly
deriving DecidableEq

/-- Goal contribution subdocument; `amount: { min: 0.01 }`. -/
structure Contribution where
  amount : ℚ
  date : Int
  note : String
  source : ContribSource
deriving DecidableEq

/-- Goal milestone subdocument; `amount: { min: 0.01 }`. -/
structure Milestone where
  name : String
  amount : ℚ
  achieved : Bool
  achievedDate : Option Int
deriving DecidableEq

/-- autoSave subdocument of a goal; `amount: { min: 0 }`. -/
structure AutoSaveRule where
  enabled : Bool
  amount : ℚ
  frequency : AutoFreq
  nextDate : Option Int
deriving DecidableEq

/-- Goal document, restricted to the fields the contribution tracker and the
auto-save sweep read.  Schema validators: `targetAmount: { min: 0.01 }`,
`currentAmount: { min: 0 }`. -/
structure Goal where
  id : Nat
  userId : Nat
  targetAmount : ℚ
  currentAmount : ℚ
  targetDate : Int
  status : GoalStatus
  autoSave : AutoSaveRule
  milestones : List Milestone
  contributions : List Contribution
deriving DecidableEq

/-- The numeric schema validators of goalSchema. -/
def validateGoalDoc (g : Goal) : Prop :=
  1 / 100 ≤ g.targetAmount ∧ 0 ≤ g.currentAmount ∧
    (∀ c ∈ g.contributions, 1 / 100 ≤ c.amount) ∧
    (∀ m ∈ g.milestones, 1 / 100 ≤ m.amount) ∧
    0 ≤ g.autoSave.amount

instance (g : Goal) : Decidable (validateGoalDoc g) := by
  unfold validateGoalDoc; infer_instance

/-- Second goalSchema.pre("save") hook: flip an active goal to completed
once `currentAmount >= targetAmount`. -/
def goalPreSaveStatus (g : Goal) : Goal :=
  if g.targetAmount ≤ g.currentAmount ∧ g.status = GoalStatus.active then
    { g with status := GoalStatus.completed }
  else g

/-- Model of `goal.save()`: schema validators, then the first pre("save") hook
(`targetDate <= now` is rejected with "La date cible doit être dans le
futur"), then the status hook, then commit. -/
def saveGoal (g : Goal) (now : Int) : Except String Goal :=
  if ¬ validateGoalDoc g then Except.error "ValidationError"
  else if g.targetDate ≤ now then
    Except.error "La date cible doit être dans le futur"
  else Except.ok (goalPreSaveStatus g)

/-- In-memory mutation of goalSchema.methods.addContribution: push the
contribution, increase `currentAmount`, then flip every not-yet-achieved
milestone whose threshold is reached by the updated `currentAmount`. -/
def applyContribution (g : Goal) (amount : ℚ) (note : String)
    (source : ContribSource) (now : Int) : Goal :=
  let c : Contribution := { amount := amount, date := now, note := note, source := source }
  let g1 := { g with contributions := g.contributions ++ [c] }
  let g2 := { g1 with currentAmount := g1.currentAmount + amount }
  { g2 with milestones := g2.milestones.map (fun m : Milestone =>
      if m.achieved = false ∧ m.amount ≤ g2.currentAmount then
        { m with achieved := true, achievedDate := some now }
      else m) }

/-- goalSchema.methods.addContribution: the in-memory mutation followed by
`this.save()`. -/
def addContribution (g : Goal) (amount : ℚ) (note : String)
    (source : ContribSource) (now : Int) : Except String Goal :=
  saveGoal (applyContribution g amount note source now) now

/-- Persisted state of a goal after an addContribution call: a failed save
leaves the stored document unchanged. -/
def persistedAddContribution (g : Goal) (amount : ℚ) (note : String)
    (source : ContribSource) (now : Int) : Goal :=
  match addContribution g amount note source now with
  | Except.ok g2 => g2
  | Except.error _ => g

/-- One recorded addContribution call (for iterating sequences of calls). -/
structure ContribCall where
  amount : ℚ
  note : String
  source : ContribSource
  now : Int

/-- Run a sequence of addContribution calls against the persisted store. -/
def runContributions (g : Goal) (cs : List ContribCall) : Goal :=
  cs.foldl (fun acc c => persistedAddContribution acc c.amount c.note c.source c.now) g

/-! Calendar arithmetic for the auto-save scheduler.  JS
`date.setMonth(date.getMonth() + 1)` is calendar-month arithmetic with
day-of-month overflow (Jan 31 + 1 month = Mar 3 in a non-leap year);
dates are integer day numbers since 1970-01-01, converted through the
standard civil-calendar algorithms. -/

/-- Day number of the first day of civil month (y, m) with m in 1..12,
plus an arbitrary (possibly overflowing) day offset d-1 — this is exactly
ECMAScript MakeDay. -/
def daysFromCivil (y m d : Int) : Int :=
  let y2 := if m ≤ 2 then y - 1 else y
  let era := Int.fdiv y2 400
  let yoe := y2 - era * 400
  let doy := Int.fdiv (153 * (m + (if 2 < m then -3 else 9)) + 2) 5 + d - 1
  let doe := yoe * 365 + Int.fdiv yoe 4 - Int.fdiv yoe 100 + doy
  era * 146097 + doe - 719468

/-- Civil date (year, month 1..12, day 1..31) of a day number. -/
def civilFromDays (z : Int) : Int × Int × Int :=
  let z2 := z + 719468
  let era := Int.fdiv z2 146097
  let doe := z2 - era * 146097
  let yoe := Int.fdiv (doe - Int.fdiv doe 1460 + Int.fdiv doe 36524 - Int.fdiv doe 146096) 365
  let y := yoe + era * 400
  let doy := doe - (365 * yoe + Int.fdiv yoe 4 - Int.fdiv yoe 100)
  let mp := Int.fdiv (5 * doy + 2) 153
  let d := doy - Int.fdiv (153 * mp + 2) 5 + 1
  let m := if mp < 10 then mp + 3 else mp - 9
  (if m ≤ 2 then y + 1 else y, m, d)

/-- Model of `nextDate.setMonth(nextDate.getMonth() + 1)`: keep the day-of-month and
move to the next calendar month, letting the day overflow as JS does. -/
def addOneMonth (z : Int) : Int :=
  match civilFromDays z with
  | (y, m, d) =>
    let y2 := if m = 12 then y + 1 else y
    let m2 := if m = 12 then 1 else m + 1
    daysFromCivil y2 m2 1 + (d - 1)

/-- goalSchema.methods.calculateNextAutoSave: null when auto-save is
disabled; otherwise advance `autoSave.nextDate || now` by the configured
frequency (daily +1 day, weekly +7 days, monthly +1 calendar month). -/
def calculateNextAutoSave (g : Goal) (now : Int) : Option Int :=
  if g.autoSave.enabled = false then none
  else
    let nextDate := g.autoSave.nextDate.getD now
    some (match g.autoSave.frequency with
      | AutoFreq.daily => nextDate + 1
      | AutoFreq.weekly => nextDate + 7
      | AutoFreq.monthly => addOneMonth nextDate)

/-- The selection query of goalSchema.statics.processAutoSaves:
`{ "autoSave.enabled": true, "autoSave.nextDate": { $lte: now },
status: "active" }`. -/
def autoSaveDue (g : Goal) (now : Int) : Bool :=
  g.autoSave.enabled &&
  (match g.autoSave.nextDate with
   | some d => decide (d ≤ now)
   | none => false) &&
  decide (g.status = GoalStatus.active)

/-- The persisted Goal collection. -/
abbrev GoalState := List Goal

/-- Model of `Goal.findById` on the store. -/
def findGoal (db : GoalState) (i : Nat) : Option Goal :=
  db.find? (fun g => decide (g.id = i))

/-- Commit a fetched goal document back to the store. -/
def updGoal (db : GoalState) (g2 : Goal) : GoalState :=
  db.map (fun h => if h.id = g2.id then g2 else h)

/-- Loop body of processAutoSaves for one due goal: addContribution (which
saves), then set `autoSave.nextDate = calculateNextAutoSave()` and save
again.  Any error is caught and logged, so a failed goal leaves the
store as it was and the sweep continues. -/
def processOneGoal (db : GoalState) (g : Goal) (now : Int) : GoalState :=
  match addContribution g g.autoSave.amount "Épargne automatique" ContribSource.auto_save now with
  | Except.error _ => db
  | Except.ok g1 =>
    match saveGoal
        { g1 with autoSave := { g1.autoSave with nextDate := calculateNextAutoSave g1 now } }
        now with
    | Except.ok g3 => updGoal (updGoal db g1) g3
    | Except.error _ => updGoal db g1

/-- goalSchema.statics.processAutoSaves: select the due goals, process each
in order with per-goal error isolation, and return
`goalsToProcess.length`. -/
def processAutoSaves (db : GoalState) (now : Int) : GoalState × Nat :=
  let goalsToProcess := db.filter (fun g => autoSaveDue g now)
  (goalsToProcess.foldl (fun acc g => processOneGoal acc g now) db,
   goalsToProcess.length)

/-! ### Concrete fixtures used by the witnesses, counterexamples and
code-bug evaluations below.  Each fixture state is either given as the
initial store of a scenario or is the literal value the preceding
operation of the scenario evaluates to. -/

def c1AcctX : Account := ⟨1, 1, AccountType.checking, 500⟩
def c1AcctY : Account := ⟨2, 1, AccountType.checking, 20⟩
def c1Db : LedgerState := { accounts := [c1AcctX, c1AcctY], txs := [] }
def c1Tx : Transaction :=
  { id := 9, userId := 1, accountId := 1, categoryId := 3, type := TxType.transfer,
    amount := 100, date := 0, transferAccountId := some 2 }

def c2Acct : Account := ⟨10, 1, AccountType.checking, 100000⟩
def c2Db0 : LedgerState := { accounts := [c2Acct], txs := [] }
def c2Tx : Transaction :=
  { id := 1, userId := 1, accountId := 10, categoryId := 7, type := TxType.expense,
    amount := 15000, date := 0 }
def c2Db1 : LedgerState :=
  { accounts := [⟨10, 1, AccountType.checking, 85000⟩], txs := [c2Tx] }

def c3Acct : Account := ⟨10, 1, AccountType.checking, 1000⟩
def c3Db0 : LedgerState := { accounts := [c3Acct], txs := [] }
def c3Tx : Transaction :=
  { id := 5, userId := 1, accountId := 10, categoryId := 7, type := TxType.income,
    amount := 100, date := 0 }
def c3Db1 : LedgerState :=
  { accounts := [⟨10, 1, AccountType.checking, 1100⟩], txs := [c3Tx] }

def c4AcctX : Account := ⟨10, 1, AccountType.checking, 0⟩
def c4AcctY : Account := ⟨20, 1, AccountType.checking, 0⟩
def c4Db0 : LedgerState := { accounts := [c4AcctX, c4AcctY], txs := [] }
def c4Tx5 : Transaction :=
  { id := 5, userId := 1, accountId := 10, categoryId := 7, type := TxType.income,
    amount := 100, date := 0 }
def c4Tx6 : Transaction :=
  { id := 6, userId := 1, accountId := 10, categoryId := 7, type := TxType.expense,
    amount := 100, date := 0 }
def c4Db1 : LedgerState :=
  { accounts := [⟨10, 1, AccountType.checking, 100⟩, c4AcctY], txs := [c4Tx5] }
def c4Db2 : LedgerState :=
  { accounts := [⟨10, 1, AccountType.checking, 0⟩, c4AcctY], txs := [c4Tx5, c4Tx6] }

def c5AcctX : Account := ⟨1, 1, AccountType.checking, 0⟩
def c5AcctY : Account := ⟨2, 1, AccountType.checking, 0⟩
def c5Db0 : LedgerState := { accounts := [c5AcctX, c5AcctY], txs := [] }
def c5Tx : Transaction :=
  { id := 9, userId := 1, accountId := 1, categoryId := 3, type := TxType.transfer,
    amount := 100, date := 0, transferAccountId := some 2 }
def c5Db1 : LedgerState :=
  { accounts := [c5AcctX, ⟨2, 1, AccountType.checking, 100⟩], txs := [c5Tx] }

def c6Budget : Budget :=
  { userId := 1, categoryId := 2, amount := 1000, spent := 0, startDate := 0,
    endDate := 30, alertThreshold := 80 }
def c6Txs : List Transaction :=
  [{ id := 1, userId := 1, accountId := 1, categoryId := 2, type := TxType.expense,
     amount := 200, date := 5 },
   { id := 2, userId := 1, accountId := 1, categoryId := 3, type := TxType.expense,
     amount := 70, date := 6 },
   { id := 3, userId := 1, accountId := 1, categoryId := 2, type := TxType.income,
     amount := 50, date := 7 },
   { id := 4, userId := 1, accountId := 1, categoryId := 2, type := TxType.expense,
     amount := 40, date := 31 },
   { id := 5, userId := 1, accountId := 1, categoryId := 2, type := TxType.expense,
     amount := 30, date := 8, status := TxStatus.pending },
   { id := 6, userId := 2, accountId := 1, categoryId := 2, type := TxType.expense,
     amount := 25, date := 9 },
   { id := 7, userId := 1, accountId := 1, categoryId := 2, type := TxType.expense,
     amount := 100, date := 30 }]
def c6Budget2 : Budget := { c6Budget with spent := 300 }

def c7Budget : Budget :=
  { userId := 1, categoryId := 2, amount := 3, spent := 1, startDate := 0,
    endDate := 10, alertThreshold := 80 }

def c8Milestone : Milestone :=
  { name := "Jalon", amount := 480000, achieved := false, achievedDate := none }
def c8Goal : Goal :=
  { id := 1, userId := 1, targetAmount := 500000, currentAmount := 450000,
    targetDate := 1000, status := GoalStatus.active,
    autoSave := { enabled := false, amount := 0, frequency := AutoFreq.monthly, nextDate := none },
    milestones := [c8Milestone], contributions := [] }
def c8Goal2 : Goal :=
  { c8Goal with
    currentAmount := 490000,
    milestones := [{ name := "Jalon", amount := 480000, achieved := true, achievedDate := some 3 }],
    contributions := [{ amount := 40000, date := 3, note := "", source := ContribSource.manual }] }

def c9GoalA : Goal :=
  { id := 1, userId := 1, targetAmount := 1000, currentAmount := 0, targetDate := 1000,
    status := GoalStatus.active,
    autoSave := { enabled := true, amount := 50, frequency := AutoFreq.daily, nextDate := some 10 },
    milestones := [], contributions := [] }
def c9GoalB : Goal := { c9GoalA with id := 2, targetDate := 5 }
def c9Db : GoalState := [c9GoalA, c9GoalB]
def c9GoalA1 : Goal :=
  { c9GoalA with
    currentAmount := 50,
    contributions := [{ amount := 50, date := 100, note := "Épargne automatique",
                        source := ContribSource.auto_save }] }
def c9GoalA3 : Goal :=
  { c9GoalA1 with autoSave := { c9GoalA1.autoSave with nextDate := some 11 } }

def c10Goal : Goal :=
  { id := 3, userId := 1, targetAmount := 1000, currentAmount := 10, targetDate := 0,
    status := GoalStatus.active,
    autoSave := { enabled := false, amount := 0, frequency := AutoFreq.monthly, nextDate := none },
    milestones := [], contributions := [] }

/-! ### Helper lemmas about the persisted collections -/

theorem find?_replace {α : Type _} (idf : α → Nat) (a : α) (l : List α) (i : Nat) :
    ((l.map (fun b => if idf b = idf a then a else b)).find? (fun b => idf b == i)) =
      if idf a = i then ((l.find? (fun b => idf b == i)).map (fun _ => a))
      else l.find? (fun b => idf b == i) := by
  induction l with
  | nil => simp
  | cons b tl ih =>
    by_cases hb : idf b = idf a
    · by_cases hi : idf a = i
      · have hbi : (idf b == i) = true := by simp [hb, hi]
        simp [List.find?_cons, hb, hi, hbi]
      · have h2 : (idf b == i) = false := by simp [hb, hi]
        simp [List.find?_cons, hb, hi, h2, ih]
    · by_cases hi : idf b = i
      · have h1 : (idf b == i) = true := by simp [hi]
        have h2 : ¬ idf a = i := fun h => hb (hi ▸ h ▸ rfl)
        simp [List.find?_cons, hb, h1, h2]
      · have h1 : (idf b == i) = false := by simp [hi]
        simp [List.find?_cons, hb, h1, ih]

theorem findAcc_putAcc (st : AccState) (a : Account) (i : Nat) :
    findAcc (putAcc st a) i =
      if a.id = i then (findAcc st i).map (fun _ => a) else findAcc st i := by
  have h := find?_replace (fun x : Account => x.id) a st i
  simpa [findAcc, putAcc] using h

theorem findAcc_some_id {st : AccState} {i : Nat} {a : Account}
    (h : findAcc st i = some a) : a.id = i := by
  have := List.find?_some h
  simpa using this

theorem normalizeCredit_of_nonneg {a : Account} (h : 0 ≤ a.balance) :
    normalizeCredit a = a := by
  unfold normalizeCredit
  rw [if_neg]
  rintro ⟨-, hlt⟩
  exact absurd hlt (not_lt.mpr h)

theorem saveAccount_of_nonneg {a : Account} (st : AccState) (h : 0 ≤ a.balance) :
    saveAccount st a = Except.ok (putAcc st a) := by
  unfold saveAccount
  rw [if_neg (not_lt.mpr h), normalizeCredit_of_nonneg h]

theorem saveAccount_of_neg {a : Account} (st : AccState) (h : a.balance < 0) :
    saveAccount st a = Except.error "Le solde ne peut pas être négatif" := by
  unfold saveAccount
  rw [if_pos h]

theorem postSave_income {st : AccState} {t : Transaction} {src : Account}
    (hsrc : findAcc st t.accountId = some src) (htype : t.type = TxType.income)
    (hbal : 0 ≤ src.balance + t.amount) :
    postSaveUpdateBalance t st =
      putAcc st { src with balance := src.balance + t.amount } := by
  have hsave := saveAccount_of_nonneg (a := { src with balance := src.balance + t.amount }) st hbal
  simp only [postSaveUpdateBalance, hsrc, htype, hsave]

theorem postSave_expense {st : AccState} {t : Transaction} {src : Account}
    (hsrc : findAcc st t.accountId = some src) (htype : t.type = TxType.expense)
    (hbal : 0 ≤ src.balance - t.amount) :
    postSaveUpdateBalance t st =
      putAcc st { src with balance := src.balance - t.amount } := by
  have hsave := saveAccount_of_nonneg (a := { src with balance := src.balance - t.amount }) st hbal
  simp only [postSaveUpdateBalance, hsrc, htype, hsave]

theorem postSave_transfer_both {st : AccState} {t : Transaction} {src dest : Account} {j : Nat}
    (hsrc : findAcc st t.accountId = some src) (htype : t.type = TxType.transfer)
    (hj : t.transferAccountId = some j) (hdest : findAcc st j = some dest)
    (hbs : 0 ≤ src.balance - t.amount) (hbd : 0 ≤ dest.balance + t.amount) :
    postSaveUpdateBalance t st =
      putAcc (putAcc st { dest with balance := dest.balance + t.amount })
        { src with balance := src.balance - t.amount } := by
  have hsaved := saveAccount_of_nonneg (a := { dest with balance := dest.balance + t.amount }) st hbd
  have hsaves := saveAccount_of_nonneg
    (a := { src with balance := src.balance - t.amount })
    (putAcc st { dest with balance := dest.balance + t.amount }) hbs
  simp only [postSaveUpdateBalance, hsrc, htype, hj, hdest, hsaved, hsaves]

theorem postSave_transfer_oneSided {st : AccState} {t : Transaction} {src dest : Account} {j : Nat}
    (hsrc : findAcc st t.accountId = some src) (htype : t.type = TxType.transfer)
    (hj : t.transferAccountId = some j) (hdest : findAcc st j = some dest)
    (hbs : src.balance - t.amount < 0) (hbd : 0 ≤ dest.balance + t.amount) :
    postSaveUpdateBalance t st =
      putAcc st { dest with balance := dest.balance + t.amount } := by
  have hsaved := saveAccount_of_nonneg (a := { dest with balance := dest.balance + t.amount }) st hbd
  have hsaves := saveAccount_of_neg
    (a := { src with balance := src.balance - t.amount })
    (putAcc st { dest with balance := dest.balance + t.amount }) hbs
  simp only [postSaveUpdateBalance, hsrc, htype, hj, hdest, hsaved, hsaves]

theorem saveNewTransaction_of_valid {db : LedgerState} {t : Transaction}
    (hval : validateTxSave t = Except.ok ()) :
    saveNewTransaction db t =
      Except.ok { txs := db.txs ++ [t], accounts := postSaveUpdateBalance t db.accounts } := by
  simp only [saveNewTransaction, hval]

theorem validateTxSave_nontransfer {t : Transaction} (hamt : 1 / 100 ≤ t.amount)
    (htype : t.type ≠ TxType.transfer) : validateTxSave t = Except.ok () := by
  unfold validateTxSave validateTransferTx
  rw [if_neg (not_lt.mpr hamt), if_neg, if_neg]
  · rintro ⟨h, -⟩; exact htype h
  · rintro ⟨h, -⟩; exact htype h

theorem validateTxSave_transfer {t : Transaction} {j : Nat} (hamt : 1 / 100 ≤ t.amount)
    (hj : t.transferAccountId = some j) (hne : j ≠ t.accountId) :
    validateTxSave t = Except.ok () := by
  unfold validateTxSave validateTransferTx
  rw [if_neg (not_lt.mpr hamt), if_neg, if_neg]
  · rintro ⟨-, h⟩
    rw [hj] at h
    exact hne (Option.some_injective _ h)
  · rintro ⟨-, h⟩
    rw [hj] at h
    exact Option.noConfusion h

/-! ### Claim C1 -/

/-- Claim C1: for every newly created ledger entry whose referenced
accounts exist and whose balance writes pass validation, the post("save")
balance updater applies exactly the effect of the entry: income increases the
account balance by the amount, expense decreases it by the amount, and a
transfer decreases the source balance and increases the destination
balance by the same amount; no other account is touched. -/
theorem c1_create_applies_entry_effect (db : LedgerState) (t : Transaction) (src : Account)
    (hsrc : findAcc db.accounts t.accountId = some src)
    (hamt : 1 / 100 ≤ t.amount) :
    (t.type = TxType.income → 0 ≤ src.balance + t.amount →
      ∃ db2, saveNewTransaction db t = Except.ok db2 ∧
        findAcc db2.accounts t.accountId = some { src with balance := src.balance + t.amount } ∧
        (∀ k, k ≠ t.accountId → findAcc db2.accounts k = findAcc db.accounts k)) ∧
    (t.type = TxType.expense → 0 ≤ src.balance - t.amount →
      ∃ db2, saveNewTransaction db t = Except.ok db2 ∧
        findAcc db2.accounts t.accountId = some { src with balance := src.balance - t.amount } ∧
        (∀ k, k ≠ t.accountId → findAcc db2.accounts k = findAcc db.accounts k)) ∧
    (t.type = TxType.transfer → ∀ j dest, t.transferAccountId = some j → j ≠ t.accountId →
      findAcc db.accounts j = some dest →
      0 ≤ src.balance - t.amount → 0 ≤ dest.balance + t.amount →
      ∃ db2, saveNewTransaction db t = Except.ok db2 ∧
        findAcc db2.accounts t.accountId = some { src with balance := src.balance - t.amount } ∧
        findAcc db2.accounts j = some { dest with balance := dest.balance + t.amount } ∧
        (∀ k, k ≠ t.accountId → k ≠ j → findAcc db2.accounts k = findAcc db.accounts k)) := by
  have hsrcid : src.id = t.accountId := findAcc_some_id hsrc
  refine ⟨?_, ?_, ?_⟩
  · intro htype hbal
    have hval := validateTxSave_nontransfer hamt (by rw [htype]; intro h; exact TxType.noConfusion h)
    refine ⟨_, saveNewTransaction_of_valid hval, ?_, ?_⟩
    · rw [postSave_income hsrc htype hbal, findAcc_putAcc]
      simp [hsrcid, hsrc]
    · intro k hk
      rw [postSave_income hsrc htype hbal, findAcc_putAcc, if_neg]
      simpa [hsrcid] using fun h => hk h.symm
  · intro htype hbal
    have hval := validateTxSave_nontransfer hamt (by rw [htype]; intro h; exact TxType.noConfusion h)
    refine ⟨_, saveNewTransaction_of_valid hval, ?_, ?_⟩
    · rw [postSave_expense hsrc htype hbal, findAcc_putAcc]
      simp [hsrcid, hsrc]
    · intro k hk
      rw [postSave_expense hsrc htype hbal, findAcc_putAcc, if_neg]
      simpa [hsrcid] using fun h => hk h.symm
  · intro htype j dest hj hne hdest hbs hbd
    have hdestid : dest.id = j := findAcc_some_id hdest
    have hval := validateTxSave_transfer hamt hj hne
    refine ⟨_, saveNewTransaction_of_valid hval, ?_, ?_, ?_⟩
    · rw [postSave_transfer_both hsrc htype hj hdest hbs hbd, findAcc_putAcc]
      rw [if_pos (by simpa using hsrcid), findAcc_putAcc, if_neg (by simpa [hdestid] using hne)]
      simp [hsrc]
    · rw [postSave_transfer_both hsrc htype hj hdest hbs hbd, findAcc_putAcc,
        if_neg (by simpa [hsrcid] using fun h => hne h.symm), findAcc_putAcc,
        if_pos (by simpa using hdestid)]
      simp [hdest]
    · intro k hk hkj
      rw [postSave_transfer_both hsrc htype hj hdest hbs hbd, findAcc_putAcc,
        if_neg (by simpa [hsrcid] using fun h => hk h.symm), findAcc_putAcc,
        if_neg (by simpa [hdestid] using fun h => hkj h.symm)]

/-- Witness for C1: a concrete transfer of 100 from account 1 (balance 500)
to account 2 (balance 20) yields balances 400 and 120. -/
theorem c1_witness :
    ∃ db2, saveNewTransaction c1Db c1Tx = Except.ok db2 ∧
      findAcc db2.accounts 1 = some ⟨1, 1, AccountType.checking, 400⟩ ∧
      findAcc db2.accounts 2 = some ⟨2, 1, AccountType.checking, 120⟩ := by
  obtain ⟨db2, hok, h1, h2, -⟩ :=
    (c1_create_applies_entry_effect c1Db c1Tx c1AcctX rfl (by norm_num [c1Tx])).2.2
      rfl 2 c1AcctY rfl (by decide) rfl
      (by norm_num [c1AcctX, c1Tx]) (by norm_num [c1AcctY, c1Tx])
  rw [show ({ c1AcctX with balance := c1AcctX.balance - c1Tx.amount } : Account) =
        ⟨1, 1, AccountType.checking, 400⟩ from by norm_num [c1AcctX, c1Tx]] at h1
  rw [show ({ c1AcctY with balance := c1AcctY.balance + c1Tx.amount } : Account) =
        ⟨2, 1, AccountType.checking, 120⟩ from by norm_num [c1AcctY, c1Tx]] at h2
  exact ⟨db2, hok, h1, h2⟩

/-! ### Claim C2 -/

/-- Claim C2 (code bug evaluation): the delete route never touches account
balances.  On the very scenario of the spec — balance 100000, expense entry of
15000 committed (balance 85000), then DELETE — the entry is removed, the
route reports success, and the balance stays 85000 instead of returning
to 100000; in general `findOneAndDelete` leaves the accounts collection
of any ledger state unchanged. -/
theorem c2_delete_does_not_reverse :
    saveNewTransaction c2Db0 c2Tx = Except.ok c2Db1 ∧
    findAcc c2Db1.accounts 10 = some ⟨10, 1, AccountType.checking, 85000⟩ ∧
    (deleteTransaction c2Db1 1 1).2 = Except.ok () ∧
    (deleteTransaction c2Db1 1 1).1.txs = [] ∧
    findAcc (deleteTransaction c2Db1 1 1).1.accounts 10 =
      some ⟨10, 1, AccountType.checking, 85000⟩ ∧
    (85000 : ℚ) ≠ 100000 ∧
    (∀ db txId userId, (deleteTransaction db txId userId).1.accounts = db.accounts) := by
  refine ⟨?_, ?_, ?_, ?_, ?_, by norm_num, ?_⟩
  · norm_num +decide [saveNewTransaction, validateTxSave, validateTransferTx,
      postSaveUpdateBalance, findAcc, saveAccount, normalizeCredit, putAcc,
      c2Db0, c2Tx, c2Db1, c2Acct, List.find?]
  · norm_num +decide [findAcc, c2Db1, List.find?]
  · norm_num +decide [deleteTransaction, findTx, c2Db1, c2Tx, List.find?]
  · norm_num +decide [deleteTransaction, findTx, c2Db1, c2Tx, List.find?, List.eraseP]
  · norm_num +decide [deleteTransaction, findTx, findAcc, c2Db1, c2Tx, List.find?]
  · intro db txId userId
    unfold deleteTransaction
    cases h : findTx db txId userId <;> simp

/-! ### Claim C3 -/

/-- Claim C3 (code bug evaluation): editing the amount of an entry from A to B on
the same account does NOT change the balance by B − A.  The PUT route
first `$inc`s the balance by the difference, but `transaction.save()`
then re-fires the post("save") hook, which applies the full new effect a
second time.  Concretely: income entry of 100 on an account at 1000
(balance 1100 after creation); editing the amount to 200 yields balance
1400, not 1100 + (200 − 100) = 1200. -/
theorem c3_edit_double_applies :
    saveNewTransaction c3Db0 c3Tx = Except.ok c3Db1 ∧
    findAcc c3Db1.accounts 10 = some ⟨10, 1, AccountType.checking, 1100⟩ ∧
    (putTransaction c3Db1 5 1 10 7 200 none).2 = Except.ok () ∧
    findAcc (putTransaction c3Db1 5 1 10 7 200 none).1.accounts 10 =
      some ⟨10, 1, AccountType.checking, 1400⟩ ∧
    (1400 : ℚ) ≠ 1100 + (200 - 100) := by
  refine ⟨?_, ?_, ?_, ?_, by norm_num⟩
  · norm_num +decide [saveNewTransaction, validateTxSave, validateTransferTx,
      postSaveUpdateBalance, findAcc, saveAccount, normalizeCredit, putAcc,
      c3Db0, c3Tx, c3Db1, c3Acct, List.find?]
  · norm_num +decide [findAcc, c3Db1, List.find?]
  · norm_num +decide [putTransaction, findTx, findAccountOwned, incBalance,
      finishPutTransaction, validateTxSave, validateTransferTx, postSaveUpdateBalance,
      findAcc, saveAccount, normalizeCredit, putAcc, c3Db1, c3Tx, List.find?]
  · norm_num +decide [putTransaction, findTx, findAccountOwned, incBalance,
      finishPutTransaction, validateTxSave, validateTransferTx, postSaveUpdateBalance,
      findAcc, saveAccount, normalizeCredit, putAcc, c3Db1, c3Tx, List.find?]

/-! ### Claim C4 -/

/-- Claim C4 (code bug evaluation): the InsufficientFunds guard holds on the
updateBalance method path, but the `$inc` updates of the PUT route bypass all
validation.  Starting from balance 0 on checking account 10 (reached by
an income of 100 followed by an expense of 100), moving the income entry
to account 20 commits balance −100 on account 10 — a non-credit account —
and the route reports success; updateBalance on the same state correctly
fails with "Solde insuffisant". -/
theorem c4_inc_bypasses_guard :
    saveNewTransaction c4Db0 c4Tx5 = Except.ok c4Db1 ∧
    saveNewTransaction c4Db1 c4Tx6 = Except.ok c4Db2 ∧
    (putTransaction c4Db2 5 1 20 7 100 none).2 = Except.ok () ∧
    findAcc (putTransaction c4Db2 5 1 20 7 100 none).1.accounts 10 =
      some ⟨10, 1, AccountType.checking, -100⟩ ∧
    c4AcctX.type ≠ AccountType.credit ∧
    updateBalance c4Db2.accounts ⟨10, 1, AccountType.checking, 0⟩ 100 BalanceOp.subtract =
      Except.error "Solde insuffisant" := by
  refine ⟨?_, ?_, ?_, ?_, by decide, ?_⟩
  · norm_num +decide [saveNewTransaction, validateTxSave, validateTransferTx,
      postSaveUpdateBalance, findAcc, saveAccount, normalizeCredit, putAcc,
      c4Db0, c4Tx5, c4Db1, c4AcctX, c4AcctY, List.find?]
  · norm_num +decide [saveNewTransaction, validateTxSave, validateTransferTx,
      postSaveUpdateBalance, findAcc, saveAccount, normalizeCredit, putAcc,
      c4Db1, c4Tx5, c4Tx6, c4Db2, c4AcctY, List.find?]
  · norm_num +decide [putTransaction, findTx, findAccountOwned, incBalance,
      finishPutTransaction, validateTxSave, validateTransferTx, postSaveUpdateBalance,
      findAcc, saveAccount, normalizeCredit, putAcc, c4Db2, c4Tx5, c4Tx6,
      c4AcctX, c4AcctY, List.find?]
  · norm_num +decide [putTransaction, findTx, findAccountOwned, incBalance,
      finishPutTransaction, validateTxSave, validateTransferTx, postSaveUpdateBalance,
      findAcc, saveAccount, normalizeCredit, putAcc, c4Db2, c4Tx5, c4Tx6,
      c4AcctX, c4AcctY, List.find?]
  · norm_num +decide [updateBalance, saveAccount, normalizeCredit]

/-! ### Claim C5 -/

/-- Claim C5 as amended: the transfer hook performs two separate account
saves, destination first.  When both writes pass validation, the source
balance decreases by the amount and the destination balance increases by
the same amount; but when the source write fails (its balance would go
negative), the destination credit has already been committed and
remains, so a state with only one side applied is observable. -/
theorem c5_transfer_two_writes (db : LedgerState) (t : Transaction) (src dest : Account)
    (j : Nat) (htype : t.type = TxType.transfer) (hj : t.transferAccountId = some j)
    (hne : j ≠ t.accountId)
    (hsrc : findAcc db.accounts t.accountId = some src)
    (hdest : findAcc db.accounts j = some dest)
    (hamt : 1 / 100 ≤ t.amount) :
    (0 ≤ src.balance - t.amount → 0 ≤ dest.balance + t.amount →
      ∃ db2, saveNewTransaction db t = Except.ok db2 ∧
        findAcc db2.accounts t.accountId = some { src with balance := src.balance - t.amount } ∧
        findAcc db2.accounts j = some { dest with balance := dest.balance + t.amount }) ∧
    (src.balance - t.amount < 0 → 0 ≤ dest.balance + t.amount →
      ∃ db2, saveNewTransaction db t = Except.ok db2 ∧
        findAcc db2.accounts t.accountId = some src ∧
        findAcc db2.accounts j = some { dest with balance := dest.balance + t.amount }) := by
  have hsrcid : src.id = t.accountId := findAcc_some_id hsrc
  have hdestid : dest.id = j := findAcc_some_id hdest
  have hval := validateTxSave_transfer hamt hj hne
  constructor
  · intro hbs hbd
    refine ⟨_, saveNewTransaction_of_valid hval, ?_, ?_⟩
    · rw [postSave_transfer_both hsrc htype hj hdest hbs hbd, findAcc_putAcc]
      rw [if_pos (by simpa using hsrcid), findAcc_putAcc, if_neg (by simpa [hdestid] using hne)]
      simp [hsrc]
    · rw [postSave_transfer_both hsrc htype hj hdest hbs hbd, findAcc_putAcc,
        if_neg (by simpa [hsrcid] using fun h => hne h.symm), findAcc_putAcc,
        if_pos (by simpa using hdestid)]
      simp [hdest]
  · intro hbs hbd
    refine ⟨_, saveNewTransaction_of_valid hval, ?_, ?_⟩
    · rw [postSave_transfer_oneSided hsrc htype hj hdest hbs hbd, findAcc_putAcc,
        if_neg (by simpa [hdestid] using hne)]
      exact hsrc
    · rw [postSave_transfer_oneSided hsrc htype hj hdest hbs hbd, findAcc_putAcc,
        if_pos (by simpa using hdestid)]
      simp [hdest]

/-- Counterexample for C5 as stated: transferring 100 from checking account 1
(balance 0) to account 2 (balance 0) commits the destination credit
(balance 100) while the source debit is rejected (balance stays 0), and
the creation still reports success — the final state is neither
"both sides applied" nor "all involved balances unchanged". -/
theorem c5_counterexample :
    saveNewTransaction c5Db0 c5Tx = Except.ok c5Db1 ∧
    ¬ ((findAcc c5Db1.accounts 1 = some { c5AcctX with balance := c5AcctX.balance - c5Tx.amount } ∧
        findAcc c5Db1.accounts 2 = some { c5AcctY with balance := c5AcctY.balance + c5Tx.amount }) ∨
       (findAcc c5Db1.accounts 1 = some c5AcctX ∧ findAcc c5Db1.accounts 2 = some c5AcctY)) := by
  constructor
  · norm_num +decide [saveNewTransaction, validateTxSave, validateTransferTx,
      postSaveUpdateBalance, findAcc, saveAccount, normalizeCredit, putAcc,
      c5Db0, c5Tx, c5Db1, c5AcctX, c5AcctY, List.find?]
  · norm_num +decide [findAcc, c5Db1, c5AcctX, c5AcctY, c5Tx, List.find?]

/-- Witness for the C5 amended theorem, at the counterexample input: the
one-sided outcome derived from the failed-source case of the theorem. -/
theorem c5_witness :
    ∃ db2, saveNewTransaction c5Db0 c5Tx = Except.ok db2 ∧
      findAcc db2.accounts 1 = some c5AcctX ∧
      findAcc db2.accounts 2 = some ⟨2, 1, AccountType.checking, 100⟩ := by
  obtain ⟨db2, hok, h1, h2⟩ :=
    (c5_transfer_two_writes c5Db0 c5Tx c5AcctX c5AcctY 2 rfl rfl (by decide) rfl rfl
      (by norm_num [c5Tx])).2 (by norm_num [c5AcctX, c5Tx]) (by norm_num [c5AcctY, c5Tx])
  rw [show ({ c5AcctY with balance := c5AcctY.balance + c5Tx.amount } : Account) =
        ⟨2, 1, AccountType.checking, 100⟩ from by norm_num [c5AcctY, c5Tx]] at h2
  exact ⟨db2, hok, h1, h2⟩

/-! ### Claim C6 -/

theorem sum_filter_budgetTxMatch (b : Budget) (txs : List Transaction) :
    ((txs.filter (budgetTxMatch b)).map (fun t => t.amount)).sum =
      (txs.map (fun t =>
        if t.userId = b.userId ∧ t.categoryId = b.categoryId ∧ t.type = TxType.expense ∧
           t.status = TxStatus.completed ∧ b.startDate ≤ t.date ∧ t.date ≤ b.endDate
        then t.amount else 0)).sum := by
  induction txs with
  | nil => simp
  | cons t ts ih =>
    by_cases hm : t.userId = b.userId ∧ t.categoryId = b.categoryId ∧ t.type = TxType.expense ∧
        t.status = TxStatus.completed ∧ b.startDate ≤ t.date ∧ t.date ≤ b.endDate
    · have hb : budgetTxMatch b t = true := by
        unfold budgetTxMatch; exact decide_eq_true hm
      simp [List.filter_cons, hb, hm, ih]
    · have hb : budgetTxMatch b t = false := by
        unfold budgetTxMatch; exact decide_eq_false hm
      simp [List.filter_cons, hb, hm, ih]

/-- Claim C6: whenever updateSpent commits, it sets `spent` to exactly the
sum of amounts over the ledger entries with the owner and
category, kind expense, status completed, and date within
[startDate, endDate]; when no entry matches, `spent` is 0; and no other
budget field is changed. -/
theorem c6_update_spent (b : Budget) (txs : List Transaction) (b2 : Budget)
    (h : updateSpent b txs = Except.ok b2) :
    b2.spent = (txs.map (fun t =>
        if t.userId = b.userId ∧ t.categoryId = b.categoryId ∧ t.type = TxType.expense ∧
           t.status = TxStatus.completed ∧ b.startDate ≤ t.date ∧ t.date ≤ b.endDate
        then t.amount else 0)).sum ∧
    ((∀ t ∈ txs, ¬ (t.userId = b.userId ∧ t.categoryId = b.categoryId ∧
        t.type = TxType.expense ∧ t.status = TxStatus.completed ∧
        b.startDate ≤ t.date ∧ t.date ≤ b.endDate)) → b2.spent = 0) ∧
    b2 = { b with spent := b2.spent } := by
  have hb2 : b2 = { b with
      spent := ((txs.filter (budgetTxMatch b)).map (fun t => t.amount)).sum } := by
    unfold updateSpent saveBudget at h
    split_ifs at h
    injection h with h
    exact h.symm
  have hspent : b2.spent = (txs.map (fun t =>
      if t.userId = b.userId ∧ t.categoryId = b.categoryId ∧ t.type = TxType.expense ∧
         t.status = TxStatus.completed ∧ b.startDate ≤ t.date ∧ t.date ≤ b.endDate
      then t.amount else 0)).sum := by
    rw [hb2, sum_filter_budgetTxMatch]
  refine ⟨hspent, ?_, ?_⟩
  · intro hnone
    rw [hspent]
    refine List.sum_eq_zero ?_
    intro x hx
    rw [List.mem_map] at hx
    obtain ⟨t, ht, rfl⟩ := hx
    rw [if_neg (hnone t ht)]
  · rw [hb2]

/-- Witness for C6: a store of seven concrete entries of which exactly two
match the budget (amounts 200 and 100, the second on the endDate
boundary), yielding spent = 300. -/
theorem c6_witness :
    updateSpent c6Budget c6Txs = Except.ok c6Budget2 ∧
    c6Budget2.spent = (c6Txs.map (fun t =>
        if t.userId = c6Budget.userId ∧ t.categoryId = c6Budget.categoryId ∧
           t.type = TxType.expense ∧ t.status = TxStatus.completed ∧
           c6Budget.startDate ≤ t.date ∧ t.date ≤ c6Budget.endDate
        then t.amount else 0)).sum := by
  have hok : updateSpent c6Budget c6Txs = Except.ok c6Budget2 := by
    norm_num +decide [updateSpent, saveBudget, validateBudgetDoc, budgetTxMatch,
      c6Budget, c6Txs, c6Budget2, List.filter]
  exact ⟨hok, (c6_update_spent c6Budget c6Txs c6Budget2 hok).1⟩

/-! ### Claim C7 -/

/-- Counterexample for C7 as stated: for a budget with target amount 3 and
spent 1, the virtual percentageUsed is `Math.round(1/3*100) = 33`, which
differs from the exact quotient `1/3*100 = 100/3`. -/
theorem c7_counterexample :
    ¬ ((percentageUsed c7Budget : ℚ) = c7Budget.spent / c7Budget.amount * 100) := by
  norm_num [percentageUsed, jsRound, c7Budget]

/-- Claim C7 as amended: for a positive target amount, percentageUsed is
`spent / amount * 100` rounded to a nearest integer (it lies within 1/2
of the exact quotient, ties rounded up); for a target amount ≤ 0 it is
0. -/
theorem c7_percentage_rounded (b : Budget) :
    (0 < b.amount →
      b.spent / b.amount * 100 - 1 / 2 < (percentageUsed b : ℚ) ∧
      (percentageUsed b : ℚ) ≤ b.spent / b.amount * 100 + 1 / 2) ∧
    (b.amount ≤ 0 → percentageUsed b = 0) := by
  constructor
  · intro hpos
    unfold percentageUsed jsRound
    rw [if_pos hpos]
    constructor
    · have h := Int.lt_floor_add_one (b.spent / b.amount * 100 + 1 / 2)
      push_cast at h ⊢
      linarith
    · have h := Int.floor_le (b.spent / b.amount * 100 + 1 / 2)
      push_cast at h ⊢
      linarith
  · intro hnp
    unfold percentageUsed
    rw [if_neg (not_lt.mpr hnp)]

/-- Witness for the C7 amended theorem at the counterexample budget
(spent 1, amount 3). -/
theorem c7_witness :
    c7Budget.spent / c7Budget.amount * 100 - 1 / 2 < (percentageUsed c7Budget : ℚ) ∧
    (percentageUsed c7Budget : ℚ) ≤ c7Budget.spent / c7Budget.amount * 100 + 1 / 2 :=
  (c7_percentage_rounded c7Budget).1 (by norm_num [c7Budget])

/-! ### Goal-model lemmas -/

@[simp] theorem goalPreSaveStatus_milestones (g : Goal) :
    (goalPreSaveStatus g).milestones = g.milestones := by
  unfold goalPreSaveStatus; split <;> rfl

@[simp] theorem goalPreSaveStatus_contributions (g : Goal) :
    (goalPreSaveStatus g).contributions = g.contributions := by
  unfold goalPreSaveStatus; split <;> rfl

@[simp] theorem goalPreSaveStatus_currentAmount (g : Goal) :
    (goalPreSaveStatus g).currentAmount = g.currentAmount := by
  unfold goalPreSaveStatus; split <;> rfl

@[simp] theorem goalPreSaveStatus_autoSave (g : Goal) :
    (goalPreSaveStatus g).autoSave = g.autoSave := by
  unfold goalPreSaveStatus; split <;> rfl

@[simp] theorem goalPreSaveStatus_id (g : Goal) :
    (goalPreSaveStatus g).id = g.id := by
  unfold goalPreSaveStatus; split <;> rfl

@[simp] theorem goalPreSaveStatus_targetDate (g : Goal) :
    (goalPreSaveStatus g).targetDate = g.targetDate := by
  unfold goalPreSaveStatus; split <;> rfl

theorem saveGoal_ok_eq {g g2 : Goal} {now : Int} (h : saveGoal g now = Except.ok g2) :
    g2 = goalPreSaveStatus g := by
  unfold saveGoal at h
  split_ifs at h
  injection h with h
  exact h.symm

theorem saveGoal_ok_targetDate {g g2 : Goal} {now : Int}
    (h : saveGoal g now = Except.ok g2) : now < g.targetDate := by
  unfold saveGoal at h
  split_ifs at h with h1 h2
  exact not_le.mp h2

theorem applyContribution_def (g : Goal) (a : ℚ) (n : String) (s : ContribSource) (t : Int) :
    applyContribution g a n s t = { g with
      contributions := g.contributions ++ [{ amount := a, date := t, note := n, source := s }],
      currentAmount := g.currentAmount + a,
      milestones := g.milestones.map (fun m =>
        if m.achieved = false ∧ m.amount ≤ g.currentAmount + a then
          { m with achieved := true, achievedDate := some t }
        else m) } := rfl

theorem addContribution_ok_fields {g g2 : Goal} {a : ℚ} {n : String} {s : ContribSource}
    {t : Int} (h : addContribution g a n s t = Except.ok g2) :
    g2.contributions = g.contributions ++ [{ amount := a, date := t, note := n, source := s }] ∧
    g2.currentAmount = g.currentAmount + a ∧
    g2.autoSave = g.autoSave ∧
    g2.id = g.id ∧
    g2.targetDate = g.targetDate ∧
    g2.milestones = g.milestones.map (fun m =>
      if m.achieved = false ∧ m.amount ≤ g.currentAmount + a then
        { m with achieved := true, achievedDate := some t }
      else m) := by
  have he := saveGoal_ok_eq h
  refine ⟨?_, ?_, ?_, ?_, ?_, ?_⟩ <;> rw [he, applyContribution_def] <;> simp

theorem achieved_persisted_step (g : Goal) (a : ℚ) (n : String) (s : ContribSource) (t : Int)
    (i : Nat) (m : Milestone) (hget : g.milestones[i]? = some m) (hach : m.achieved = true) :
    ∃ m2, (persistedAddContribution g a n s t).milestones[i]? = some m2 ∧
      m2.achieved = true := by
  unfold persistedAddContribution
  cases h : addContribution g a n s t with
  | error e => exact ⟨m, hget, hach⟩
  | ok g2 =>
    have hms := (addContribution_ok_fields h).2.2.2.2.2
    rw [hms, List.getElem?_map, hget]
    simp only [Option.map_some']
    refine ⟨_, rfl, ?_⟩
    split_ifs
    · rfl
    · exact hach

theorem achieved_runContributions (g : Goal) (cs : List ContribCall) (i : Nat) (m : Milestone)
    (hget : g.milestones[i]? = some m) (hach : m.achieved = true) :
    ∃ m2, (runContributions g cs).milestones[i]? = some m2 ∧ m2.achieved = true := by
  induction cs generalizing g m with
  | nil => exact ⟨m, hget, hach⟩
  | cons c cs ih =>
    obtain ⟨m1, hg1, ha1⟩ := achieved_persisted_step g c.amount c.note c.source c.now i m hget hach
    exact ih _ _ hg1 ha1

/-! ### Claim C8 -/

/-- Claim C8: during a committed addContribution, every not-yet-achieved
milestone whose threshold is at most the updated currentAmount gets
achieved = true with achievedDate set to the contribution time; and a
milestone that is achieved after the call stays achieved through any
subsequent sequence of contribution calls. -/
theorem c8_milestones_monotonic (g : Goal) (a : ℚ) (note2 : String) (s : ContribSource)
    (t : Int) (g2 : Goal) (hok : addContribution g a note2 s t = Except.ok g2) :
    (∀ (i : Nat) (m : Milestone), g.milestones[i]? = some m → m.achieved = false →
      m.amount ≤ g.currentAmount + a →
      ∃ m2, g2.milestones[i]? = some m2 ∧ m2.achieved = true ∧ m2.achievedDate = some t) ∧
    (∀ (cs : List ContribCall) (i : Nat) (m2 : Milestone),
      g2.milestones[i]? = some m2 → m2.achieved = true →
      ∃ m3, (runContributions g2 cs).milestones[i]? = some m3 ∧ m3.achieved = true) := by
  constructor
  · intro i m hget hnach hle
    have hms := (addContribution_ok_fields hok).2.2.2.2.2
    rw [hms, List.getElem?_map, hget]
    simp only [Option.map_some']
    rw [if_pos ⟨hnach, hle⟩]
    exact ⟨_, rfl, rfl, rfl⟩
  · intro cs i m2 hget hach
    exact achieved_runContributions g2 cs i m2 hget hach

/-- Witness for C8 at the example scenario of the spec: goal target 500000, current
450000, milestone at 480000 unachieved; addContribution(40000) commits
current 490000, the milestone flips to achieved, and the status stays
active. -/
theorem c8_witness :
    addContribution c8Goal 40000 "" ContribSource.manual 3 = Except.ok c8Goal2 ∧
    (∃ m2, c8Goal2.milestones[0]? = some m2 ∧ m2.achieved = true ∧ m2.achievedDate = some 3) ∧
    c8Goal2.status = GoalStatus.active := by
  have hok : addContribution c8Goal 40000 "" ContribSource.manual 3 = Except.ok c8Goal2 := by
    norm_num +decide [addContribution, applyContribution, saveGoal, validateGoalDoc,
      goalPreSaveStatus, c8Goal, c8Goal2, c8Milestone]
  refine ⟨hok, ?_, rfl⟩
  exact (c8_milestones_monotonic c8Goal 40000 "" ContribSource.manual 3 c8Goal2 hok).1 0
    c8Milestone rfl rfl (by norm_num [c8Goal, c8Milestone])

/-! ### Claim C10 -/

/-- Claim C10: every goal save re-validates that the target date is strictly
in the future, and consequently addContribution on a goal whose
targetDate is not after the current time fails with a validation error
and persists nothing — the stored goal is unchanged. -/
theorem c10_target_date_revalidated :
    (∀ (g : Goal) (now : Int) (g2 : Goal), saveGoal g now = Except.ok g2 →
      now < g.targetDate) ∧
    (∀ (g : Goal) (a : ℚ) (note2 : String) (s : ContribSource) (now : Int),
      g.targetDate ≤ now →
      (∃ e, addContribution g a note2 s now = Except.error e) ∧
      persistedAddContribution g a note2 s now = g) := by
  constructor
  · intro g now g2 h
    exact saveGoal_ok_targetDate h
  · intro g a note2 s now hld
    have htd : (applyContribution g a note2 s now).targetDate = g.targetDate := by
      rw [applyContribution_def]
    have herr : ∃ e, addContribution g a note2 s now = Except.error e := by
      unfold addContribution saveGoal
      by_cases h1 : validateGoalDoc (applyContribution g a note2 s now)
      · rw [if_neg (not_not_intro h1),
          if_pos (show (applyContribution g a note2 s now).targetDate ≤ now by
            rw [htd]; exact hld)]
        exact ⟨_, rfl⟩
      · rw [if_pos h1]
        exact ⟨_, rfl⟩
    obtain ⟨e, he⟩ := herr
    refine ⟨⟨e, he⟩, ?_⟩
    unfold persistedAddContribution
    rw [he]

/-- Witness for C10: a goal with targetDate 0 at time 5 rejects a valid
positive auto-save contribution and its persisted state is unchanged. -/
theorem c10_witness :
    (∃ e, addContribution c10Goal 10 "" ContribSource.auto_save 5 = Except.error e) ∧
    persistedAddContribution c10Goal 10 "" ContribSource.auto_save 5 = c10Goal :=
  (c10_target_date_revalidated).2 c10Goal 10 "" ContribSource.auto_save 5
    (by norm_num [c10Goal])

/-! ### Lemmas about the goal store and the auto-save sweep -/

theorem findGoal_updGoal (db : GoalState) (g2 : Goal) (i : Nat) :
    findGoal (updGoal db g2) i =
      if g2.id = i then (findGoal db i).map (fun _ => g2) else findGoal db i := by
  have h := find?_replace (fun x : Goal => x.id) g2 db i
  simpa [findGoal, updGoal] using h

theorem findGoal_of_mem_nodup {db : GoalState} {g : Goal}
    (hmem : g ∈ db) (hids : (db.map (fun h => h.id)).Nodup) :
    findGoal db g.id = some g := by
  induction db with
  | nil => cases hmem
  | cons b tl ih =>
    rcases List.mem_cons.mp hmem with rfl | hmem2
    · unfold findGoal
      rw [List.find?_cons_of_pos]
      simp
    · have hbne : b.id ≠ g.id := by
        have hnotin : b.id ∉ tl.map (fun h => h.id) := by
          simpa using (List.nodup_cons.mp hids).1
        intro he
        exact hnotin (he ▸ List.mem_map_of_mem _ hmem2)
      unfold findGoal
      rw [List.find?_cons_of_neg]
      · exact ih hmem2 (List.nodup_cons.mp hids).2
      · simp [hbne]

theorem eq_of_mem_nodup_id {db : GoalState} {g h : Goal}
    (hids : (db.map (fun x => x.id)).Nodup) (hg : g ∈ db) (hh : h ∈ db)
    (hid : h.id = g.id) : h = g := by
  have h1 := findGoal_of_mem_nodup hg hids
  have h2 := findGoal_of_mem_nodup hh hids
  rw [hid, h1] at h2
  exact Option.some_injective _ h2.symm

theorem nodup_middle_ne {α : Type _} {f : α → Nat} {l1 l2 : List α} {g : α}
    (h : ((l1 ++ g :: l2).map f).Nodup) :
    (∀ x ∈ l1, f x ≠ f g) ∧ (∀ x ∈ l2, f x ≠ f g) := by
  rw [List.map_append, List.map_cons] at h
  constructor
  · intro x hx he
    have hdisj := List.disjoint_of_nodup_append h
    have : f g ∉ l1.map f := fun hmem => hdisj hmem (by simp)
    exact this (he ▸ List.mem_map_of_mem f hx)
  · intro x hx he
    have h2 := (List.nodup_append.mp h).2.1
    have h3 : f g ∉ l2.map f := (List.nodup_cons.mp h2).1
    exact h3 (he ▸ List.mem_map_of_mem f hx)

theorem processOneGoal_findGoal_ne (db : GoalState) (g : Goal) (now : Int) (i : Nat)
    (hne : g.id ≠ i) :
    findGoal (processOneGoal db g now) i = findGoal db i := by
  cases h : addContribution g g.autoSave.amount "Épargne automatique"
      ContribSource.auto_save now with
  | error e =>
    have hpog : processOneGoal db g now = db := by
      unfold processOneGoal
      rw [h]
    rw [hpog]
  | ok g1 =>
    have hid1 : g1.id = g.id := (addContribution_ok_fields h).2.2.2.1
    cases h2 : saveGoal
        { g1 with autoSave := { g1.autoSave with nextDate := calculateNextAutoSave g1 now } }
        now with
    | error e =>
      have hpog : processOneGoal db g now = updGoal db g1 := by
        unfold processOneGoal
        simp only [h, h2]
      rw [hpog, findGoal_updGoal, if_neg (show ¬ g1.id = i by rw [hid1]; exact hne)]
    | ok g3 =>
      have hid3 : g3.id = g.id := by
        rw [saveGoal_ok_eq h2]
        simpa using hid1
      have hpog : processOneGoal db g now = updGoal (updGoal db g1) g3 := by
        unfold processOneGoal
        simp only [h, h2]
      rw [hpog, findGoal_updGoal, if_neg (show ¬ g3.id = i by rw [hid3]; exact hne),
        findGoal_updGoal, if_neg (show ¬ g1.id = i by rw [hid1]; exact hne)]

theorem foldl_processOneGoal_ne (now : Int) (l : List Goal) (db : GoalState) (i : Nat)
    (hall : ∀ h ∈ l, h.id ≠ i) :
    findGoal (l.foldl (fun acc g => processOneGoal acc g now) db) i = findGoal db i := by
  induction l generalizing db with
  | nil => rfl
  | cons b tl ih =>
    rw [List.foldl_cons, ih _ (fun h hm => hall h (List.mem_cons_of_mem b hm))]
    exact processOneGoal_findGoal_ne db b now i (hall b (List.mem_cons_self b tl))

/-! ### Claim C9 -/

/-- Claim C9: the auto-save sweep selects exactly the active goals with
autoSave enabled and nextDate ≤ now and returns their count; a goal
outside the selection is untouched; for a selected goal whose
addContribution fails, the error is caught, the remaining goals are
still processed, and the stored state of the failed goal is unchanged; for a
selected goal whose two saves succeed, the store holds the goal with the
auto_save contribution of the configured amount appended, currentAmount
increased by it, and nextDate advanced to calculateNextAutoSave. -/
theorem c9_process_auto_saves (db : GoalState) (now : Int)
    (hids : (db.map (fun g => g.id)).Nodup) :
    (processAutoSaves db now).2 = (db.filter (fun g => autoSaveDue g now)).length ∧
    (∀ g ∈ db, autoSaveDue g now = false →
      findGoal (processAutoSaves db now).1 g.id = some g) ∧
    (∀ g ∈ db, autoSaveDue g now = true →
      ((∃ e, addContribution g g.autoSave.amount "Épargne automatique"
          ContribSource.auto_save now = Except.error e) →
        findGoal (processAutoSaves db now).1 g.id = some g) ∧
      (∀ g1 g3, addContribution g g.autoSave.amount "Épargne automatique"
          ContribSource.auto_save now = Except.ok g1 →
        saveGoal { g1 with
            autoSave := { g1.autoSave with nextDate := calculateNextAutoSave g1 now } } now =
          Except.ok g3 →
        findGoal (processAutoSaves db now).1 g.id = some g3 ∧
        g3.contributions = g.contributions ++
          [{ amount := g.autoSave.amount, date := now, note := "Épargne automatique",
             source := ContribSource.auto_save }] ∧
        g3.currentAmount = g.currentAmount + g.autoSave.amount ∧
        g3.autoSave.nextDate = calculateNextAutoSave g1 now)) := by
  have hps1 : (processAutoSaves db now).1 =
      (db.filter (fun g => autoSaveDue g now)).foldl
        (fun acc g => processOneGoal acc g now) db := rfl
  refine ⟨rfl, ?_, ?_⟩
  · intro g hgdb hfalse
    have hall : ∀ h ∈ db.filter (fun g => autoSaveDue g now), h.id ≠ g.id := by
      intro h hm hid
      have hhdb := (List.mem_filter.mp hm).1
      have hdue := (List.mem_filter.mp hm).2
      rw [eq_of_mem_nodup_id hids hgdb hhdb hid] at hdue
      simp [hfalse] at hdue
    rw [hps1, foldl_processOneGoal_ne now _ db g.id hall]
    exact findGoal_of_mem_nodup hgdb hids
  · intro g hgdb hdue
    have hgmem : g ∈ db.filter (fun g => autoSaveDue g now) :=
      List.mem_filter.mpr ⟨hgdb, hdue⟩
    obtain ⟨l1, l2, hsplit⟩ := List.append_of_mem hgmem
    have hids2 : ((db.filter (fun g => autoSaveDue g now)).map (fun g => g.id)).Nodup :=
      hids.sublist ((db.filter_sublist).map (fun g => g.id))
    rw [hsplit] at hids2
    obtain ⟨hl1, hl2⟩ := nodup_middle_ne hids2
    have hfold : (processAutoSaves db now).1 =
        l2.foldl (fun acc g => processOneGoal acc g now)
          (processOneGoal (l1.foldl (fun acc g => processOneGoal acc g now) db) g now) := by
      rw [hps1, hsplit, List.foldl_append, List.foldl_cons]
    have hbase : findGoal (l1.foldl (fun acc g => processOneGoal acc g now) db) g.id =
        some g := by
      rw [foldl_processOneGoal_ne now _ db g.id hl1]
      exact findGoal_of_mem_nodup hgdb hids
    constructor
    · rintro ⟨e, he⟩
      have hpog : processOneGoal (l1.foldl (fun acc g => processOneGoal acc g now) db) g now =
          l1.foldl (fun acc g => processOneGoal acc g now) db := by
        unfold processOneGoal
        rw [he]
      rw [hfold, hpog, foldl_processOneGoal_ne now _ _ g.id hl2]
      exact hbase
    · intro g1 g3 h1 h3
      have hid1 : g1.id = g.id := (addContribution_ok_fields h1).2.2.2.1
      have hid3 : g3.id = g.id := by
        rw [saveGoal_ok_eq h3]
        simpa using hid1
      have hpog : processOneGoal (l1.foldl (fun acc g => processOneGoal acc g now) db) g now =
          updGoal (updGoal (l1.foldl (fun acc g => processOneGoal acc g now) db) g1) g3 := by
        unfold processOneGoal
        simp only [h1, h3]
      have hfind : findGoal (processAutoSaves db now).1 g.id = some g3 := by
        rw [hfold, hpog, foldl_processOneGoal_ne now _ _ g.id hl2,
          findGoal_updGoal, if_pos hid3, findGoal_updGoal, if_pos hid1, hbase]
        rfl
      have he3 := saveGoal_ok_eq h3
      have hfields := addContribution_ok_fields h1
      refine ⟨hfind, ?_, ?_, ?_⟩
      · rw [he3]
        simpa using hfields.1
      · rw [he3]
        simpa using hfields.2.1
      · rw [he3]
        simp

/-- Witness for C9 at the partial-failure scenario of the spec: two due goals;
the first is processed (contribution 50 applied, nextDate advanced from
10 to 11), the save of the second fails on its past target date and its
stored state is unchanged, and the returned count is 2. -/
theorem c9_witness :
    findGoal (processAutoSaves c9Db 100).1 1 = some c9GoalA3 ∧
    findGoal (processAutoSaves c9Db 100).1 2 = some c9GoalB ∧
    (processAutoSaves c9Db 100).2 = 2 := by
  have h := c9_process_auto_saves c9Db 100 (by decide)
  have hA :=
    ((h.2.2 c9GoalA (by decide) (by decide)).2 c9GoalA1 c9GoalA3
      (by norm_num +decide [addContribution, applyContribution, saveGoal, validateGoalDoc,
        goalPreSaveStatus, c9GoalA, c9GoalA1])
      (by norm_num +decide [saveGoal, validateGoalDoc, goalPreSaveStatus,
        calculateNextAutoSave, addOneMonth, civilFromDays, daysFromCivil,
        c9GoalA1, c9GoalA3, c9GoalA])).1
  have hB := (h.2.2 c9GoalB (by decide) (by decide)).1
    ⟨"La date cible doit être dans le futur",
      by norm_num +decide [addContribution, applyContribution, saveGoal, validateGoalDoc,
        c9GoalB, c9GoalA]⟩
  have hcount : (processAutoSaves c9Db 100).2 = 2 := by
    rw [h.1]
    norm_num +decide [autoSaveDue, c9Db, c9GoalA, c9GoalB, List.filter]
  have hA2 : findGoal (processAutoSaves c9Db 100).1 1 = some c9GoalA3 := by
    rw [show (1 : Nat) = c9GoalA.id from rfl]
    exact hA
  have hB2 : findGoal (processAutoSaves c9Db 100).1 2 = some c9GoalB := by
    rw [show (2 : Nat) = c9GoalB.id from rfl]
    exact hB
  exact ⟨hA2, hB2, hcount⟩

end GestionBudget
